import Mathlib

/-!
Verification development for the notor repository's e2e capture-and-orchestration
pipeline: the structured log collector (`e2e/lib/log-collector.ts`), the Obsidian
process launcher (`e2e/lib/obsidian-launcher.ts`) and the standalone debug runner
(`e2e/run-and-collect.ts`).

The TypeScript code is shallowly embedded: JS runtime values flowing through the
collector are modelled by an inductive `Json` type, stateful classes become
explicit state records with pure transition functions, and the file system /
child-process effects are modelled by explicit state fields (current config file
contents, backup file contents, delivered signals, stream contents).  External
library behaviour that the code merely calls (`JSON.parse`, HTTP polling results,
process exit behaviour) is supplied as explicit oracle parameters, so each
theorem quantifies over the possible behaviours of those collaborators.
-/

namespace Notor

deriving instance DecidableEq for Except

/-! ## JavaScript primitive semantics

Helpers mirroring the exact semantics of the JavaScript string/array operations
used by the source.  They operate on `List Char` so that concrete instances
reduce inside the kernel. -/

/-- Semantics of JS `String.prototype.startsWith`. -/
def strStartsWith (s p : String) : Bool :=
  s.data.take p.data.length == p.data

/-- Semantics of JS `String.prototype.slice(n)` for `n ≥ 0` (the source only
slices by the ASCII marker length, where UTF-16 units and characters agree). -/
def strDrop (s : String) (n : Nat) : String :=
  ⟨s.data.drop n⟩

/-- Semantics of JS `String.prototype.trim`: strip whitespace from both ends. -/
def jsTrim (s : String) : String :=
  ⟨((s.data.dropWhile Char.isWhitespace).reverse.dropWhile Char.isWhitespace).reverse⟩

/-- Semantics of JS `arr.slice(-k)`, the only negative-slice form used by the
source.  Crucially, JS `slice(-0)` is `slice(0)`, i.e. the WHOLE array, not the
empty one: for `k = 0` the call does not truncate at all. -/
def jsSliceLast (xs : List α) (k : Nat) : List α :=
  if k = 0 then xs else xs.drop (xs.length - k)

/-- Semantics of `[...new Set(arr)]`: deduplicate, keeping first occurrences in
insertion order. -/
def jsSetDedup [DecidableEq α] (l : List α) : List α :=
  l.foldl (fun acc x => if x ∈ acc then acc else acc ++ [x]) []

/-! ## JS runtime values

The collector's buffer holds whatever `JSON.parse` returned, with no field
validation, so entries are modelled as arbitrary JSON-like runtime values.
Mutual inductives (rather than a nested `List`) keep the derived decidable
equality kernel-reducible. -/

mutual
inductive Json where
  | null
  | bool (b : Bool)
  | num (n : Int)
  | str (s : String)
  | arr (elems : JsonList)
  | obj (fields : JsonFields)
deriving DecidableEq

inductive JsonList where
  | nil
  | cons (hd : Json) (tl : JsonList)
deriving DecidableEq

inductive JsonFields where
  | nil
  | cons (key : String) (val : Json) (tl : JsonFields)
deriving DecidableEq
end

/-- Property lookup on an object's field list.  JS objects have unique keys, so
first-match lookup is faithful. -/
def JsonFields.lookup : JsonFields → String → Option Json
  | .nil, _ => none
  | .cons k v tl, key => if key = k then some v else JsonFields.lookup tl key

/-- Semantics of JS property access `j.key` on the values the collector stores:
`some v` models the property being present, `none` models `undefined`.
(Property access on `null`/`undefined` throws in JS; the source never guards for
that, and no claim exercises it, so non-objects simply yield `none` here.) -/
def getField (j : Json) (key : String) : Option Json :=
  match j with
  | .obj fs => fs.lookup key
  | _ => none

/-! ## Log collector (`e2e/lib/log-collector.ts`)

`LogCollector` instance state.  The two `fs.WriteStream`s are modelled by the
list of records appended to each plus an open/closed flag; `summaryWrites` /
`disposeEffectRuns` are instrumentation counters observing how many times the
summary file was (over)written and how many times `dispose` ran its body past
the `disposed` guard. -/

/-- Raw console record, mirroring interface `RawConsoleEntry`. -/
structure RawConsoleEntry where
  timestamp : String
  type : String
  text : String
deriving DecidableEq

/-- Summary statistics, mirroring the `stats` object of `writeSummary`.
`sources` holds the (possibly-`undefined`) `source` properties, deduplicated in
insertion order as `[...new Set(...)]` does. -/
structure SummaryStats where
  totalEntries : Nat
  errors : Nat
  warnings : Nat
  sources : List (Option Json)
deriving DecidableEq

/-- Summary snapshot, mirroring the object serialized by `writeSummary`. -/
structure Summary where
  generatedAt : String
  stats : SummaryStats
  recentErrors : List Json
  recentWarnings : List Json
  lastEntries : List Json
deriving DecidableEq

/-- State of one `LogCollector` instance. -/
structure CollectorState where
  captureAll : Bool
  maxEntries : Nat
  structuredLogs : List Json
  rawLogs : List RawConsoleEntry
  structuredStream : List Json
  rawStream : List RawConsoleEntry
  structuredStreamOpen : Bool
  rawStreamOpen : Bool
  disposed : Bool
  summaryWrites : Nat
  disposeEffectRuns : Nat
  lastSummary : Option Summary
deriving DecidableEq

namespace LogCollector

/-- Marker prefixing structured log lines (source constant `LOG_PREFIX`). -/
def logMarker : String := "[NOTOR_LOG]"

/-- Constructor semantics: fresh buffers, streams opened (the raw stream only
when `captureAll`), not yet disposed. -/
def mkCollector (captureAll : Bool) (maxEntries : Nat) : CollectorState :=
  { captureAll := captureAll
    maxEntries := maxEntries
    structuredLogs := []
    rawLogs := []
    structuredStream := []
    rawStream := []
    structuredStreamOpen := true
    rawStreamOpen := captureAll
    disposed := false
    summaryWrites := 0
    disposeEffectRuns := 0
    lastSummary := none }

/-- Method `writeStructured`: bail out when disposed; push the entry and append
it to the structured stream; then rotate the in-memory buffer to
`slice(-Math.floor(maxEntries / 2))` whenever its length exceeds `maxEntries`. -/
def writeStructured (st : CollectorState) (entry : Json) : CollectorState :=
  if st.disposed then st
  else
    let logs := st.structuredLogs ++ [entry]
    let st1 := { st with structuredLogs := logs
                         structuredStream := st.structuredStream ++ [entry] }
    if logs.length > st.maxEntries then
      { st1 with structuredLogs := jsSliceLast logs (st.maxEntries / 2) }
    else st1

/-- Fallback entry synthesized when `JSON.parse` throws on a marker line. -/
def fallbackEntry (now text err : String) : Json :=
  Json.obj (.cons "timestamp" (Json.str now)
    (.cons "level" (Json.str "warn")
      (.cons "source" (Json.str "log-collector")
        (.cons "message" (Json.str "Failed to parse structured log entry")
          (.cons "data" (Json.obj (.cons "rawText" (Json.str text)
            (.cons "error" (Json.str err) .nil))) .nil)))))

/-- Method `handleConsoleMessage`.  `jp` is the oracle modelling `JSON.parse`
(`Except.error` models the thrown exception, stringified); `now` models
`new Date().toISOString()`.  Raw capture happens first (when enabled), then a
marker line is parsed, falling back to `fallbackEntry` when the parse throws.
Parsed values are stored as-is: the source performs no field validation. -/
def handleConsoleMessage (jp : String → Except String Json) (now : String)
    (st : CollectorState) (msgType text : String) : CollectorState :=
  let st :=
    if st.captureAll then
      { st with rawLogs := st.rawLogs ++ [⟨now, msgType, text⟩]
                rawStream := st.rawStream ++ [⟨now, msgType, text⟩] }
    else st
  if strStartsWith text logMarker then
    match jp (jsTrim (strDrop text logMarker.data.length)) with
    | .ok entry => writeStructured st entry
    | .error err => writeStructured st (fallbackEntry now text err)
  else st

/-- Entry built by the `pageerror` listener installed in `attach`. -/
def pageErrorEntry (now msg : String) (stack : Json) : Json :=
  Json.obj (.cons "timestamp" (Json.str now)
    (.cons "level" (Json.str "error")
      (.cons "source" (Json.str "page-error")
        (.cons "message" (Json.str msg)
          (.cons "data" (Json.obj (.cons "stack" stack .nil)) .nil)))))

/-- The `pageerror` listener: synthesize an error entry and record it. -/
def handlePageError (now msg : String) (stack : Json) (st : CollectorState) :
    CollectorState :=
  writeStructured st (pageErrorEntry now msg stack)

/-- Predicate for `e.level === lvl` (strict equality: only a string property
equal to `lvl` matches). -/
def levelIs (lvl : String) (e : Json) : Bool :=
  match getField e "level" with
  | some (Json.str s) => s == lvl
  | _ => false

/-- Predicate for `e.source === src`. -/
def sourceIs (src : String) (e : Json) : Bool :=
  match getField e "source" with
  | some (Json.str s) => s == src
  | _ => false

/-- Method `getLogsByLevel`. -/
def getLogsByLevel (logs : List Json) (lvl : String) : List Json :=
  logs.filter (levelIs lvl)

/-- Method `getLogsBySource`. -/
def getLogsBySource (logs : List Json) (src : String) : List Json :=
  logs.filter (sourceIs src)

/-- Method `hasErrors`. -/
def hasErrors (logs : List Json) : Bool :=
  logs.any (levelIs "error")

/-- Pure content of the summary object computed by `writeSummary`. -/
def mkSummary (now : String) (logs : List Json) : Summary :=
  let errors := getLogsByLevel logs "error"
  let warnings := getLogsByLevel logs "warn"
  { generatedAt := now
    stats :=
      { totalEntries := logs.length
        errors := errors.length
        warnings := warnings.length
        sources := jsSetDedup (logs.map (fun e => getField e "source")) }
    recentErrors := jsSliceLast errors 20
    recentWarnings := jsSliceLast warnings 10
    lastEntries := jsSliceLast logs 30 }

/-- Method `writeSummary`: overwrite the fixed-name summary file with the
summary of the current buffer (not guarded by `disposed`). -/
def writeSummaryOp (now : String) (st : CollectorState) : CollectorState :=
  { st with summaryWrites := st.summaryWrites + 1
            lastSummary := some (mkSummary now st.structuredLogs) }

/-- Method `dispose`: a second call hits the `disposed` guard and does nothing.
Otherwise the flag is set first, the final summary is written, and both streams
are ended.  `summaryWriteFails` is the oracle for `fs.writeFileSync` throwing
inside the final `writeSummary`; in that case (`false` result, modelling the
rejected promise) the streams are never ended, matching the source's
straight-line `await`. -/
def dispose (now : String) (summaryWriteFails : Bool) (st : CollectorState) :
    CollectorState × Bool :=
  if st.disposed then (st, true)
  else
    let st1 := { st with disposed := true
                         disposeEffectRuns := st.disposeEffectRuns + 1 }
    if summaryWriteFails then (st1, false)
    else
      let st2 := writeSummaryOp now st1
      ({ st2 with structuredStreamOpen := false, rawStreamOpen := false }, true)

end LogCollector

/-! ## Obsidian launcher (`e2e/lib/obsidian-launcher.ts`)

Process/FS effects are modelled by explicit state records.  `which obsidian`,
`test -f`, environment variables and the HTTP readiness probe are oracle
parameters describing the host. -/

/-- Errors thrown by the launcher.  `noExecutable` models the "Could not find
Obsidian executable" throw, `unsupportedPlatform` the default-branch throw, and
`cdpTimeout` the throw at the bottom of `waitForCDP` (carrying the elapsed
milliseconds at the moment of the throw, for the timing claims). -/
inductive LaunchErr where
  | noExecutable
  | unsupportedPlatform (os : String)
  | cdpTimeout (elapsedMs : Nat)
deriving DecidableEq

/-- Result of `os.platform()`. -/
inductive OSKind where
  | darwin
  | win32
  | linux
  | other (name : String)
deriving DecidableEq

/-- Host environment oracle for executable discovery: platform, the relevant
environment variables, the result of `which obsidian` (`some` = its trimmed
stdout on success, `none` = nonzero exit), and `test -f` existence checks. -/
structure PlatformEnv where
  os : OSKind
  localAppData : Option String
  home : Option String
  whichObsidian : Option String
  fileExists : String → Bool

/-- Linux fallback locations, in source order.  JS template interpolation of an
unset `process.env.HOME` produces the literal text "undefined". -/
def linuxFallbackPaths (penv : PlatformEnv) : List String :=
  ["/usr/bin/obsidian", "/usr/local/bin/obsidian", "/snap/bin/obsidian",
   (penv.home.getD "undefined") ++ "/.local/bin/obsidian"]

/-- Function `resolveObsidianPath`: fixed locations on macOS/Windows; on Linux
a `which obsidian` PATH lookup first, then the fallback locations in order. -/
def resolveObsidianPath (penv : PlatformEnv) : Except LaunchErr String :=
  match penv.os with
  | .darwin => .ok "/Applications/Obsidian.app/Contents/MacOS/Obsidian"
  | .win32 => .ok ((penv.localAppData.getD "undefined") ++ "\\Obsidian\\Obsidian.exe")
  | .linux =>
      match penv.whichObsidian with
      | some p => .ok p
      | none =>
          match (linuxFallbackPaths penv).find? penv.fileExists with
          | some p => .ok p
          | none => .error .noExecutable
  | .other name => .error (.unsupportedPlatform name)

/-- The expression `process.env.OBSIDIAN_PATH || resolveObsidianPath()` at the
top of `launchObsidian`: `||` falls through on the empty string (falsy). -/
def resolveExecutable (envOverride : Option String) (penv : PlatformEnv) :
    Except LaunchErr String :=
  match envOverride with
  | some p => if p = "" then resolveObsidianPath penv else .ok p
  | none => resolveObsidianPath penv

/-- State of the shared host configuration (`obsidian.json` and its
`.e2e-backup` file): `config`/`backup` are the files' contents when they exist.
`restores` counts effective restorations (copy-back performed). -/
structure FsState where
  config : Option String
  backup : Option String
  restores : Nat
deriving DecidableEq

/-- Function `setOpenVault`: when `obsidian.json` is missing, skip and report no
backup.  Otherwise snapshot the raw contents to the backup file, rewrite the
config (the vault-table edit is abstracted as `mutate`), and report that a
backup path was returned. -/
def setOpenVault (mutate : String → String) (fs : FsState) : FsState × Bool :=
  match fs.config with
  | none => (fs, false)
  | some raw =>
      ({ fs with backup := some raw, config := some (mutate raw) }, true)

/-- Function `restoreObsidianConfig`: guarded by `fs.existsSync(backupPath)`;
copies the backup over the config and unlinks the backup. -/
def restoreObsidianConfig (fs : FsState) : FsState :=
  match fs.backup with
  | some b => { config := some b, backup := none, restores := fs.restores + 1 }
  | none => fs

/-- Function `waitForCDP`: the readiness loop.  `attempt t` is the oracle for
one probe of `http://127.0.0.1:port/json/version` started at elapsed time `t`:
its first component is `some url` when the request succeeded, its body parsed,
and a `webSocketDebuggerUrl` was present (every other case — connection error,
the probe's own 2s timeout, malformed body, missing field — is `none`); its
second component is how long the probe took (the source caps a probe at its 2s
request timeout).  Each failed iteration sleeps 500 ms.  On loop exit the
timeout error carries the elapsed time. -/
def waitForCDP (attempt : Nat → Option String × Nat) (timeoutMs t : Nat) :
    Except Nat String :=
  if _h : t < timeoutMs then
    match (attempt t).1 with
    | some url => .ok url
    | none => waitForCDP attempt timeoutMs (t + (attempt t).2 + 500)
  else
    .error t
termination_by timeoutMs - t
decreasing_by omega

/-- Elapsed times at which `waitForCDP` starts its probes (stopping after a
successful probe, as the loop returns there). -/
def pollTimes (attempt : Nat → Option String × Nat) (timeoutMs t : Nat) :
    List Nat :=
  if _h : t < timeoutMs then
    t :: (match (attempt t).1 with
          | some _ => []
          | none => pollTimes attempt timeoutMs (t + (attempt t).2 + 500))
  else []
termination_by timeoutMs - t
decreasing_by omega

/-- Consecutive elements at least 500 ms apart ("must not busy-loop faster than
the poll interval"). -/
def spacedBy500 : List Nat → Prop
  | a :: b :: rest => a + 500 ≤ b ∧ spacedBy500 (b :: rest)
  | _ => True

/-- Record of one `spawn` call.  Node's `spawn` never throws synchronously for
a missing executable: it returns a `ChildProcess` whose `error` event fires
later (the source only logs it) and whose `pid` is `undefined`. -/
structure ChildRec where
  pid : Option Nat
deriving DecidableEq

/-- World state threaded through `launchObsidian`: the shared config files and
the children spawned so far. -/
structure LaunchTrace where
  fs : FsState
  spawned : List ChildRec
deriving DecidableEq

/-- Mirror of interface `ObsidianProcess` (the `process` member is represented
by its pid). -/
structure ObsidianHandle where
  pid : Option Nat
  wsEndpoint : String
  cdpPort : Nat
  hasConfigBackup : Bool
deriving DecidableEq

/-- Function `launchObsidian`: resolve the executable (override first), mutate
the shared config via `setOpenVault`, spawn (always producing a child record —
`spawnOk` is the oracle for whether the OS accepted the executable, giving the
child a pid), then block in `waitForCDP`; its timeout becomes the thrown
error.  Only a fully-ready process yields a handle. -/
def launchObsidian (envOverride : Option String) (penv : PlatformEnv)
    (spawnOk : Bool) (newPid : Nat) (mutate : String → String)
    (attempt : Nat → Option String × Nat) (cdpPort timeoutMs : Nat)
    (tr : LaunchTrace) : Except LaunchErr ObsidianHandle × LaunchTrace :=
  match resolveExecutable envOverride penv with
  | .error e => (.error e, tr)
  | .ok _path =>
      let vres := setOpenVault mutate tr.fs
      let child : ChildRec := { pid := if spawnOk then some newPid else none }
      let tr1 : LaunchTrace := { fs := vres.1, spawned := tr.spawned ++ [child] }
      match waitForCDP attempt timeoutMs 0 with
      | .error te => (.error (.cdpTimeout te), tr1)
      | .ok ws =>
          (.ok { pid := child.pid, wsEndpoint := ws, cdpPort := cdpPort,
                 hasConfigBackup := vres.2 }, tr1)

/-- Node `ChildProcess` status: `alive` is actual process liveness; `killed` is
Node's flag, set only when `kill()` successfully delivered a signal (never set
by the process exiting on its own, and `kill()` on an exited child delivers
nothing and leaves it unchanged). -/
structure ProcState where
  alive : Bool
  killed : Bool
deriving DecidableEq

/-- State acted on by `closeObsidian`: the child process, the shared config
files, and counters of actually-delivered signals. -/
structure TerminateState where
  proc : ProcState
  fs : FsState
  sigtermsDelivered : Nat
  sigkillsDelivered : Nat
deriving DecidableEq

/-- Semantics of `subprocess.kill("SIGTERM")`: delivered (and `killed` set)
only when the process is still alive. -/
def deliverSigterm (s : TerminateState) : TerminateState :=
  if s.proc.alive then
    { s with proc := { s.proc with killed := true }
             sigtermsDelivered := s.sigtermsDelivered + 1 }
  else s

/-- Semantics of `subprocess.kill("SIGKILL")`: delivered only when alive, and
then the process dies. -/
def deliverSigkill (s : TerminateState) : TerminateState :=
  if s.proc.alive then
    { s with proc := { alive := false, killed := true }
             sigkillsDelivered := s.sigkillsDelivered + 1 }
  else s

/-- Function `closeObsidian` for the handle's process.  `exitsOnTerm` is the
oracle for whether a live process exits within the 5 s grace period after
SIGTERM.  When `process.killed` is already set, only the config restore runs.
Otherwise: SIGTERM; if the process survives the grace period the timer fires
and escalates to SIGKILL only when `!killed` (note that a delivered SIGTERM has
already set `killed`); finally the config restore runs when the handle carries
a backup path. -/
def closeObsidian (exitsOnTerm hasConfigBackup : Bool) (s : TerminateState) :
    TerminateState :=
  if s.proc.killed then
    if hasConfigBackup then { s with fs := restoreObsidianConfig s.fs } else s
  else
    let s1 := deliverSigterm s
    let s2 := if s1.proc.alive && exitsOnTerm then
                { s1 with proc := { s1.proc with alive := false } }
              else s1
    let s3 := if !s2.proc.killed then deliverSigkill s2 else s2
    if hasConfigBackup then { s3 with fs := restoreObsidianConfig s3.fs } else s3

/-! ## Debug-run orchestrator (`e2e/run-and-collect.ts`, function `main`)

Each failure point of the `try` block is an oracle flag; the model mirrors the
source's `try { ... } catch { dispose?.() } finally { closeObsidian?.() }`
shape.  Only the facts claim C1 is about are tracked: whether a handle and a
collector were created, the collector's state (whose `disposeEffectRuns`
instrumentation counts effective disposals), and how many times the `finally`
block invoked `closeObsidian`. -/

/-- Which steps of one debug run fail.  Every `await` in the `try` block that
can reject is represented; `disposeWriteFails` makes the `dispose` call at the
end of the `try` block reject (from inside its final summary write). -/
structure RunOracle where
  skipBuild : Bool
  buildFails : Bool
  launchFails : Bool
  connectFails : Bool
  pageMissing : Bool
  loadFails : Bool
  screenshot1Fails : Bool
  screenshot2Fails : Bool
  summaryFails : Bool
  disposeWriteFails : Bool

/-- Observable state of one debug run. -/
structure RunState where
  buildExit : Bool
  obsidianLaunched : Bool
  collector : Option CollectorState
  closeCalls : Nat
deriving DecidableEq

/-- Initial run state (`let obsidian, collector` both undefined). -/
def initRunState : RunState :=
  { buildExit := false, obsidianLaunched := false, collector := none,
    closeCalls := 0 }

/-- The `try` block of `main`, steps 2–5: launch, connect, find page, create
and attach the collector, wait for load, screenshot, sleep, screenshot, write
summary, dispose, close browser (its rejection is swallowed by `.catch`).
Returns the state plus whether the block completed without throwing. -/
def runnerTry (o : RunOracle) (s : RunState) : RunState × Bool :=
  if o.launchFails then (s, false) else
  let s := { s with obsidianLaunched := true }
  if o.connectFails then (s, false) else
  if o.pageMissing then (s, false) else
  let s := { s with collector := some (LogCollector.mkCollector true 10000) }
  if o.loadFails then (s, false) else
  if o.screenshot1Fails then (s, false) else
  if o.screenshot2Fails then (s, false) else
  if o.summaryFails then (s, false) else
  let s := { s with collector := s.collector.map (LogCollector.writeSummaryOp "t") }
  match s.collector with
  | some c =>
      match LogCollector.dispose "t" o.disposeWriteFails c with
      | (c1, ok) => ({ s with collector := some c1 }, ok)
  | none => (s, true)

/-- The `catch` block: `if (collector) await collector.dispose().catch(() => {})`. -/
def runnerCatch (o : RunOracle) (s : RunState) : RunState :=
  match s.collector with
  | some c =>
      { s with collector := some (LogCollector.dispose "t" o.disposeWriteFails c).1 }
  | none => s

/-- Function `main`: build (exiting the process on failure before any resource
exists), then the `try`/`catch`/`finally` sequence; the `finally` block calls
`closeObsidian` exactly when a handle was obtained. -/
def mainModel (o : RunOracle) : RunState :=
  if !o.skipBuild && o.buildFails then { initRunState with buildExit := true }
  else
    let res := runnerTry o initRunState
    let s := if res.2 then res.1 else runnerCatch o res.1
    if s.obsidianLaunched then { s with closeCalls := s.closeCalls + 1 } else s

/-! ## Concrete instances used by counterexamples and witnesses -/

/-- Oracle for `JSON.parse` on the concrete inputs of the C3 counterexample:
the JSON text "null" parses successfully to `null` (ECMA-404 allows any JSON
value at the top level, not only objects); everything else throws. -/
def jpNullOnly : String → Except String Json :=
  fun s => if s = "null" then .ok Json.null else .error "SyntaxError"

/-- Fold `writeStructured` over a batch of arriving entries. -/
def ingestAll (st : CollectorState) (es : List Json) : CollectorState :=
  es.foldl LogCollector.writeStructured st

/-- Probe oracle for an endpoint that never becomes ready, each probe failing
instantly (e.g. connection refused). -/
def neverReadyFast : Nat → Option String × Nat := fun _ => (none, 0)

/-- Probe oracle for an endpoint that never becomes ready, each probe hanging
until the source's 2000 ms per-request timeout. -/
def neverReadySlow : Nat → Option String × Nat := fun _ => (none, 2000)

/-- Linux host on which `which obsidian` finds a PATH entry while the
well-known location `/usr/bin/obsidian` also exists. -/
def penvLinuxBoth : PlatformEnv :=
  { os := .linux, localAppData := none, home := some "/home/user",
    whichObsidian := some "/home/user/bin/obsidian",
    fileExists := fun p => p == "/usr/bin/obsidian" }

/-- macOS host (fixed install location; the other discovery oracles are
irrelevant on this platform). -/
def penvMac : PlatformEnv :=
  { os := .darwin, localAppData := none, home := none,
    whichObsidian := none, fileExists := fun _ => false }

/-- Empty world: no `obsidian.json`, no children spawned yet. -/
def emptyTrace : LaunchTrace :=
  { fs := { config := none, backup := none, restores := 0 }, spawned := [] }

/-- Well-formed structured entry with the given level, source and timestamp. -/
def mkEntry (lvl src ts : String) : Json :=
  Json.obj (.cons "timestamp" (Json.str ts)
    (.cons "level" (Json.str lvl)
      (.cons "source" (Json.str src)
        (.cons "message" (Json.str "m") .nil))))

/-- The five-entry buffer of the end-to-end scenario: levels
[info, info, warn, info, error] from sources A, B, A, C, B, in arrival order. -/
def scenarioLogs : List Json :=
  [mkEntry "info" "A" "0.1", mkEntry "info" "B" "0.5", mkEntry "warn" "A" "1.0",
   mkEntry "info" "C" "1.5", mkEntry "error" "B" "1.9"]

/-- Collector with capacity 4 whose buffer already holds 4 entries. -/
def fullCollector4 : CollectorState :=
  { LogCollector.mkCollector true 4 with
      structuredLogs := [Json.str "a", Json.str "b", Json.str "c", Json.str "d"] }

/-- Collector that has already been disposed. -/
def disposedCollector : CollectorState :=
  (LogCollector.dispose "t" false (LogCollector.mkCollector true 10000)).1

/-! ## Helper lemmas -/

/-- Length bound for `slice(-k)` with positive `k`. -/
theorem jsSliceLast_length_le {α : Type} (xs : List α) (k : Nat) (hk : k ≠ 0) :
    (jsSliceLast xs k).length ≤ k := by
  unfold jsSliceLast
  rw [if_neg hk, List.length_drop]
  omega

/-- The buffer update performed by one `writeStructured` call on a live
collector. -/
theorem writeStructured_logs (st : CollectorState) (e : Json)
    (hnd : st.disposed = false) :
    (LogCollector.writeStructured st e).structuredLogs
      = if st.structuredLogs.length + 1 > st.maxEntries
        then jsSliceLast (st.structuredLogs ++ [e]) (st.maxEntries / 2)
        else st.structuredLogs ++ [e] := by
  unfold LogCollector.writeStructured
  simp only [hnd, Bool.false_eq_true, if_false, List.length_append,
    List.length_singleton]
  split <;> rename_i h <;> simp [h]

/-- A second `closeObsidian` on the same handle changes nothing: no signal
delivery, no restoration, no process/file-system change. -/
theorem closeObsidian_second_call (e1 e2 hb : Bool) (s : TerminateState) :
    closeObsidian e2 hb (closeObsidian e1 hb s) = closeObsidian e1 hb s := by
  rcases s with ⟨⟨alive, killed⟩, ⟨config, backup, restores⟩, n1, n2⟩
  cases alive <;> cases killed <;> cases hb <;> cases e1 <;> cases e2 <;>
    cases backup <;>
      simp [closeObsidian, deliverSigterm, deliverSigkill, restoreObsidianConfig]

/-- A second `dispose` on the same collector returns successfully and changes
nothing. -/
theorem dispose_second_call (now1 now2 : String) (f1 f2 : Bool)
    (st : CollectorState) :
    LogCollector.dispose now2 f2 (LogCollector.dispose now1 f1 st).1
      = ((LogCollector.dispose now1 f1 st).1, true) := by
  cases hd : st.disposed <;> cases f1 <;>
    simp [LogCollector.dispose, LogCollector.writeSummaryOp, hd]

/-! ## Claims -/

/-- C2 (amended): for every live collector whose configured capacity is at
least 2 and whose buffer satisfies the length invariant, after `writeStructured`
the buffer length still does not exceed the capacity; the surviving entries are
always a suffix of the arrival sequence (relative order preserved, newest
retained); below capacity the entry is simply appended; and at capacity the
buffer is truncated to the `⌊capacity/2⌋` most recent entries, evicting the
oldest `capacity + 1 - ⌊capacity/2⌋`.  (The claim's `⌈capacity/2⌉` retention
count and its unconditional capacity bound are refuted by
`c2_counterexample`.) -/
theorem c2_buffer_rotation (st : CollectorState) (e : Json)
    (hnd : st.disposed = false) (hcap : 2 ≤ st.maxEntries)
    (hinv : st.structuredLogs.length ≤ st.maxEntries) :
    (LogCollector.writeStructured st e).structuredLogs.length ≤ st.maxEntries ∧
    (LogCollector.writeStructured st e).structuredLogs <:+ st.structuredLogs ++ [e] ∧
    (st.structuredLogs.length < st.maxEntries →
      (LogCollector.writeStructured st e).structuredLogs = st.structuredLogs ++ [e]) ∧
    (st.structuredLogs.length = st.maxEntries →
      (LogCollector.writeStructured st e).structuredLogs
        = (st.structuredLogs ++ [e]).drop (st.maxEntries + 1 - st.maxEntries / 2) ∧
      (LogCollector.writeStructured st e).structuredLogs.length
        = st.maxEntries / 2) := by
  have hlogs := writeStructured_logs st e hnd
  have hlena : (st.structuredLogs ++ [e]).length = st.structuredLogs.length + 1 := by
    simp
  by_cases hov : st.structuredLogs.length + 1 > st.maxEntries
  · have hlen : st.structuredLogs.length = st.maxEntries := by omega
    rw [if_pos hov] at hlogs
    have hk : st.maxEntries / 2 ≠ 0 := by omega
    unfold jsSliceLast at hlogs
    rw [if_neg hk, hlena, hlen] at hlogs
    refine ⟨?_, ?_, ?_, ?_⟩
    · rw [hlogs, List.length_drop, hlena, hlen]; omega
    · rw [hlogs]; exact List.drop_suffix _ _
    · intro h; omega
    · intro _; exact ⟨hlogs, by rw [hlogs, List.length_drop, hlena, hlen]; omega⟩
  · rw [if_neg hov] at hlogs
    refine ⟨?_, ?_, ?_, ?_⟩
    · rw [hlogs, hlena]; omega
    · rw [hlogs]
    · intro _; exact hlogs
    · intro h; omega

/-- C2 counterexample: with capacity 1, JS `slice(-0)` keeps the whole array,
so after two ingests the buffer length is 2 > 1 — "length never exceeds the
capacity" is false; and with capacity 5, ingesting a 6th entry retains only the
2 most recent entries, not `⌈5/2⌉ = 3` — "the most recent ⌈capacity/2⌉ entries
are retained" is false. -/
theorem c2_counterexample :
    ((ingestAll (LogCollector.mkCollector true 1)
        [Json.str "e1", Json.str "e2"]).structuredLogs.length = 2 ∧
     ¬((ingestAll (LogCollector.mkCollector true 1)
        [Json.str "e1", Json.str "e2"]).structuredLogs.length ≤ 1)) ∧
    ((ingestAll (LogCollector.mkCollector true 5)
        [Json.str "e1", Json.str "e2", Json.str "e3", Json.str "e4",
         Json.str "e5", Json.str "e6"]).structuredLogs
        = [Json.str "e5", Json.str "e6"] ∧
     (ingestAll (LogCollector.mkCollector true 5)
        [Json.str "e1", Json.str "e2", Json.str "e3", Json.str "e4",
         Json.str "e5", Json.str "e6"]).structuredLogs.length ≠ (5 + 1) / 2) := by
  decide

/-- C2 witness: the amended rotation law evaluated on a capacity-4 collector
holding 4 entries. -/
theorem c2_witness :
    fullCollector4.disposed = false ∧
    2 ≤ fullCollector4.maxEntries ∧
    fullCollector4.structuredLogs.length ≤ fullCollector4.maxEntries ∧
    ((LogCollector.writeStructured fullCollector4 (Json.str "e")).structuredLogs.length
        ≤ fullCollector4.maxEntries ∧
     (LogCollector.writeStructured fullCollector4 (Json.str "e")).structuredLogs
        <:+ fullCollector4.structuredLogs ++ [Json.str "e"] ∧
     (fullCollector4.structuredLogs.length < fullCollector4.maxEntries →
       (LogCollector.writeStructured fullCollector4 (Json.str "e")).structuredLogs
         = fullCollector4.structuredLogs ++ [Json.str "e"]) ∧
     (fullCollector4.structuredLogs.length = fullCollector4.maxEntries →
       (LogCollector.writeStructured fullCollector4 (Json.str "e")).structuredLogs
         = (fullCollector4.structuredLogs ++ [Json.str "e"]).drop
             (fullCollector4.maxEntries + 1 - fullCollector4.maxEntries / 2) ∧
       (LogCollector.writeStructured fullCollector4 (Json.str "e")).structuredLogs.length
         = fullCollector4.maxEntries / 2)) :=
  ⟨rfl, by decide, by decide,
   c2_buffer_rotation fullCollector4 (Json.str "e") rfl (by decide) (by decide)⟩

/-- C3 (amended): for every marker line whose remainder makes `JSON.parse`
throw (malformed JSON), a live collector with room in its buffer appends
exactly one synthesized entry — warn level, source "log-collector", the fixed
parse-failure message, and a payload carrying the original raw text and the
stringified error — and the buffer length increases by exactly one; ingestion
is total, so nothing is dropped and nothing is thrown.  (The claim additionally
asserted the same for well-formed JSON lacking the required LogEntry fields;
`c3_counterexample` refutes that part: the source stores the parsed value
without any field validation.) -/
theorem c3_malformed_no_drop (jp : String → Except String Json)
    (now msgType text err : String) (st : CollectorState)
    (hnd : st.disposed = false)
    (hmk : strStartsWith text LogCollector.logMarker = true)
    (hparse : jp (jsTrim (strDrop text LogCollector.logMarker.data.length))
        = .error err)
    (hroom : st.structuredLogs.length < st.maxEntries) :
    (LogCollector.handleConsoleMessage jp now st msgType text).structuredLogs
      = st.structuredLogs ++ [LogCollector.fallbackEntry now text err] ∧
    (LogCollector.handleConsoleMessage jp now st msgType text).structuredLogs.length
      = st.structuredLogs.length + 1 ∧
    getField (LogCollector.fallbackEntry now text err) "level"
      = some (Json.str "warn") ∧
    getField (LogCollector.fallbackEntry now text err) "source"
      = some (Json.str "log-collector") ∧
    getField (LogCollector.fallbackEntry now text err) "message"
      = some (Json.str "Failed to parse structured log entry") ∧
    getField (LogCollector.fallbackEntry now text err) "data"
      = some (Json.obj (.cons "rawText" (Json.str text)
          (.cons "error" (Json.str err) .nil))) := by
  have hmain :
      (LogCollector.handleConsoleMessage jp now st msgType text).structuredLogs
        = st.structuredLogs ++ [LogCollector.fallbackEntry now text err] := by
    unfold LogCollector.handleConsoleMessage
    cases hc : st.captureAll <;>
      · simp only [hc, Bool.false_eq_true, if_false, if_true, hmk, hparse]
        rw [writeStructured_logs _ _ (by simp [hnd]),
          if_neg (by first | omega | (simp only [] ; simp ; omega))]
  refine ⟨hmain, by rw [hmain]; simp, rfl, rfl, rfl, rfl⟩

/-- C3 counterexample: the console line "[NOTOR_LOG] null" carries valid JSON
(`null`) that is not an object with the required LogEntry fields; the claim
demands a synthesized warn-level entry, but the collector stores the bare
`null` value itself, which has no `level` property at all. -/
theorem c3_counterexample :
    (LogCollector.handleConsoleMessage jpNullOnly "t0"
        (LogCollector.mkCollector true 10000) "log" "[NOTOR_LOG] null").structuredLogs
      = [Json.null] ∧
    getField Json.null "level" = none ∧
    Json.null ≠ LogCollector.fallbackEntry "t0" "[NOTOR_LOG] null" "SyntaxError" := by
  decide

/-- C3 witness: the amended no-silent-drop law evaluated on a malformed marker
line (unparseable remainder "!!!"). -/
theorem c3_witness :
    (LogCollector.mkCollector true 10000).disposed = false ∧
    strStartsWith "[NOTOR_LOG] !!!" LogCollector.logMarker = true ∧
    jpNullOnly (jsTrim (strDrop "[NOTOR_LOG] !!!" LogCollector.logMarker.data.length))
      = .error "SyntaxError" ∧
    (LogCollector.mkCollector true 10000).structuredLogs.length
      < (LogCollector.mkCollector true 10000).maxEntries ∧
    ((LogCollector.handleConsoleMessage jpNullOnly "t0"
        (LogCollector.mkCollector true 10000) "log" "[NOTOR_LOG] !!!").structuredLogs
      = (LogCollector.mkCollector true 10000).structuredLogs
          ++ [LogCollector.fallbackEntry "t0" "[NOTOR_LOG] !!!" "SyntaxError"] ∧
     (LogCollector.handleConsoleMessage jpNullOnly "t0"
        (LogCollector.mkCollector true 10000) "log" "[NOTOR_LOG] !!!").structuredLogs.length
      = (LogCollector.mkCollector true 10000).structuredLogs.length + 1 ∧
     getField (LogCollector.fallbackEntry "t0" "[NOTOR_LOG] !!!" "SyntaxError") "level"
      = some (Json.str "warn") ∧
     getField (LogCollector.fallbackEntry "t0" "[NOTOR_LOG] !!!" "SyntaxError") "source"
      = some (Json.str "log-collector") ∧
     getField (LogCollector.fallbackEntry "t0" "[NOTOR_LOG] !!!" "SyntaxError") "message"
      = some (Json.str "Failed to parse structured log entry") ∧
     getField (LogCollector.fallbackEntry "t0" "[NOTOR_LOG] !!!" "SyntaxError") "data"
      = some (Json.obj (.cons "rawText" (Json.str "[NOTOR_LOG] !!!")
          (.cons "error" (Json.str "SyntaxError") .nil)))) :=
  ⟨rfl, by decide, by decide, by decide,
   c3_malformed_no_drop jpNullOnly "t0" "log" "[NOTOR_LOG] !!!" "SyntaxError"
     (LogCollector.mkCollector true 10000) rfl (by decide) (by decide) (by decide)⟩

/-- C5: teardown is idempotent.  A second `closeObsidian` on the same handle
(whatever the process's exit behaviour on either call) leaves the entire state
unchanged — no signal deliveries, no second config restoration; and a second
`dispose` on the same collector returns successfully while leaving the
collector state unchanged — no second summary write, no second stream close. -/
theorem c5_idempotent_teardown :
    (∀ (e1 e2 hb : Bool) (s : TerminateState),
        closeObsidian e2 hb (closeObsidian e1 hb s) = closeObsidian e1 hb s) ∧
    (∀ (now1 now2 : String) (f1 f2 : Bool) (st : CollectorState),
        LogCollector.dispose now2 f2 (LogCollector.dispose now1 f1 st).1
          = ((LogCollector.dispose now1 f1 st).1, true)) :=
  ⟨closeObsidian_second_call, dispose_second_call⟩

/-- C9: on the five-entry scenario buffer the summary reports 5 total entries,
1 error, 1 warning, sources [A, B, C], one recent error and one recent
warning; and for every buffer state the summary's recent-error list has at
most 20 entries, its recent-warning list at most 10, and its last-entries list
at most 30. -/
theorem c9_summary_contents :
    ((LogCollector.mkSummary "t" scenarioLogs).stats.totalEntries = 5 ∧
     (LogCollector.mkSummary "t" scenarioLogs).stats.errors = 1 ∧
     (LogCollector.mkSummary "t" scenarioLogs).stats.warnings = 1 ∧
     (LogCollector.mkSummary "t" scenarioLogs).stats.sources
       = [some (Json.str "A"), some (Json.str "B"), some (Json.str "C")] ∧
     (LogCollector.mkSummary "t" scenarioLogs).recentErrors.length = 1 ∧
     (LogCollector.mkSummary "t" scenarioLogs).recentWarnings.length = 1) ∧
    (∀ (now : String) (logs : List Json),
       (LogCollector.mkSummary now logs).recentErrors.length ≤ 20 ∧
       (LogCollector.mkSummary now logs).recentWarnings.length ≤ 10 ∧
       (LogCollector.mkSummary now logs).lastEntries.length ≤ 30) := by
  constructor
  · decide
  · intro now logs
    refine ⟨?_, ?_, ?_⟩ <;>
      · simp only [LogCollector.mkSummary]
        exact jsSliceLast_length_le _ _ (by decide)

/-- C10: once a collector is disposed, a delivered console line (structured or
not, parseable or not) and a delivered page error leave both the in-memory
structured buffer and the persisted structured stream unchanged, and the
handlers are total (no exception). -/
theorem c10_after_dispose (jp : String → Except String Json)
    (now msgType text msg : String) (stack : Json) (st : CollectorState)
    (hd : st.disposed = true) :
    ((LogCollector.handleConsoleMessage jp now st msgType text).structuredLogs
        = st.structuredLogs ∧
     (LogCollector.handleConsoleMessage jp now st msgType text).structuredStream
        = st.structuredStream) ∧
    ((LogCollector.handlePageError now msg stack st).structuredLogs
        = st.structuredLogs ∧
     (LogCollector.handlePageError now msg stack st).structuredStream
        = st.structuredStream) := by
  unfold LogCollector.handleConsoleMessage LogCollector.handlePageError
    LogCollector.writeStructured
  cases hc : st.captureAll <;>
    cases hjp : jp (jsTrim (strDrop text LogCollector.logMarker.data.length)) <;>
      cases hmk : strStartsWith text LogCollector.logMarker <;>
        simp [hd, hc, hjp, hmk]

/-- C10 witness: the frame property evaluated on a freshly disposed collector
receiving one late structured line and one late page error. -/
theorem c10_witness :
    disposedCollector.disposed = true ∧
    (((LogCollector.handleConsoleMessage jpNullOnly "t1" disposedCollector
          "log" "[NOTOR_LOG] null").structuredLogs
        = disposedCollector.structuredLogs ∧
      (LogCollector.handleConsoleMessage jpNullOnly "t1" disposedCollector
          "log" "[NOTOR_LOG] null").structuredStream
        = disposedCollector.structuredStream) ∧
     ((LogCollector.handlePageError "t1" "boom" Json.null disposedCollector).structuredLogs
        = disposedCollector.structuredLogs ∧
      (LogCollector.handlePageError "t1" "boom" Json.null disposedCollector).structuredStream
        = disposedCollector.structuredStream)) :=
  ⟨by decide,
   c10_after_dispose jpNullOnly "t1" "log" "[NOTOR_LOG] null" "boom" Json.null
     disposedCollector (by decide)⟩

/-- C4: whenever the launcher mutated `obsidian.json` at spawn time (which it
does exactly when the file exists), the first `closeObsidian` on the handle —
for every process state, including a process that already died before the call
— leaves the config file holding the original contents, consumes the backup
file, and bumps the restoration count by exactly one; and any later
`closeObsidian` on the handle changes nothing, so the restoration is never
repeated. -/
theorem c4_config_restore (mutate : String → String) (raw : String)
    (fs0 : FsState) (pr : ProcState) (n1 n2 : Nat) (e1 e2 : Bool)
    (hcfg : fs0.config = some raw) :
    (setOpenVault mutate fs0).2 = true ∧
    (closeObsidian e1 (setOpenVault mutate fs0).2
        { proc := pr, fs := (setOpenVault mutate fs0).1,
          sigtermsDelivered := n1, sigkillsDelivered := n2 }).fs
      = { config := some raw, backup := none, restores := fs0.restores + 1 } ∧
    closeObsidian e2 (setOpenVault mutate fs0).2
        (closeObsidian e1 (setOpenVault mutate fs0).2
          { proc := pr, fs := (setOpenVault mutate fs0).1,
            sigtermsDelivered := n1, sigkillsDelivered := n2 })
      = closeObsidian e1 (setOpenVault mutate fs0).2
          { proc := pr, fs := (setOpenVault mutate fs0).1,
            sigtermsDelivered := n1, sigkillsDelivered := n2 } := by
  rcases fs0 with ⟨config, backup, restores⟩
  cases hcfg
  refine ⟨rfl, ?_, closeObsidian_second_call e1 e2 _ _⟩
  rcases pr with ⟨alive, killed⟩
  cases alive <;> cases killed <;> cases e1 <;>
    simp [setOpenVault, closeObsidian, deliverSigterm, deliverSigkill,
      restoreObsidianConfig]

/-- C4 witness: the restore guarantee evaluated for a process that died on its
own before `closeObsidian` was ever called (`alive = false`, `killed = false`),
with original config contents "ORIG". -/
theorem c4_witness :
    (FsState.mk (some "ORIG") none 0).config = some "ORIG" ∧
    ((setOpenVault (fun s => s ++ "#") (FsState.mk (some "ORIG") none 0)).2 = true ∧
     (closeObsidian false (setOpenVault (fun s => s ++ "#")
            (FsState.mk (some "ORIG") none 0)).2
        { proc := { alive := false, killed := false },
          fs := (setOpenVault (fun s => s ++ "#") (FsState.mk (some "ORIG") none 0)).1,
          sigtermsDelivered := 0, sigkillsDelivered := 0 }).fs
      = { config := some "ORIG", backup := none,
          restores := (FsState.mk (some "ORIG") none 0).restores + 1 } ∧
     closeObsidian true (setOpenVault (fun s => s ++ "#")
            (FsState.mk (some "ORIG") none 0)).2
        (closeObsidian false (setOpenVault (fun s => s ++ "#")
              (FsState.mk (some "ORIG") none 0)).2
          { proc := { alive := false, killed := false },
            fs := (setOpenVault (fun s => s ++ "#") (FsState.mk (some "ORIG") none 0)).1,
            sigtermsDelivered := 0, sigkillsDelivered := 0 })
      = closeObsidian false (setOpenVault (fun s => s ++ "#")
              (FsState.mk (some "ORIG") none 0)).2
          { proc := { alive := false, killed := false },
            fs := (setOpenVault (fun s => s ++ "#") (FsState.mk (some "ORIG") none 0)).1,
            sigtermsDelivered := 0, sigkillsDelivered := 0 }) :=
  ⟨rfl, c4_config_restore (fun s => s ++ "#") "ORIG" (FsState.mk (some "ORIG") none 0)
    { alive := false, killed := false } 0 0 false true rfl⟩

/-- An endpoint that never reports ready makes `waitForCDP` end in the timeout
throw, whatever the probe durations. -/
theorem waitForCDP_never_ready (attempt : Nat → Option String × Nat)
    (timeoutMs : Nat) (hnone : ∀ u, (attempt u).1 = none) (t : Nat) :
    ∃ te, waitForCDP attempt timeoutMs t = .error te := by
  by_cases h : t < timeoutMs
  · rw [waitForCDP, dif_pos h, hnone t]
    exact waitForCDP_never_ready attempt timeoutMs hnone (t + (attempt t).2 + 500)
  · exact ⟨t, by rw [waitForCDP, dif_neg h]⟩
termination_by timeoutMs - t
decreasing_by omega

/-- Elapsed-time window of the timeout throw when no probe ever succeeds and
each probe takes at most its 2000 ms request timeout, starting from any elapsed
time still inside the window. -/
theorem waitForCDP_never_elapsed (attempt : Nat → Option String × Nat)
    (timeoutMs : Nat) (hnone : ∀ u, (attempt u).1 = none)
    (hdur : ∀ u, (attempt u).2 ≤ 2000) (t : Nat) (ht : t < timeoutMs) :
    ∃ te, waitForCDP attempt timeoutMs t = .error te ∧ timeoutMs ≤ te ∧
      te < timeoutMs + 2500 := by
  rw [waitForCDP, dif_pos ht, hnone t]
  by_cases h2 : t + (attempt t).2 + 500 < timeoutMs
  · exact waitForCDP_never_elapsed attempt timeoutMs hnone hdur
      (t + (attempt t).2 + 500) h2
  · refine ⟨t + (attempt t).2 + 500, ?_, by omega, by have := hdur t; omega⟩
    rw [waitForCDP, dif_neg h2]
termination_by timeoutMs - t
decreasing_by omega

/-- Heads of the poll-time list: the list is empty or starts at the current
elapsed time. -/
theorem pollTimes_head (attempt : Nat → Option String × Nat) (timeoutMs t : Nat) :
    pollTimes attempt timeoutMs t = [] ∨
    ∃ rest, pollTimes attempt timeoutMs t = t :: rest := by
  by_cases h : t < timeoutMs
  · right
    rw [pollTimes, dif_pos h]
    exact ⟨_, rfl⟩
  · left
    rw [pollTimes, dif_neg h]

/-- Successive probes start at least one poll interval (500 ms) apart. -/
theorem pollTimes_spaced (attempt : Nat → Option String × Nat)
    (timeoutMs t : Nat) : spacedBy500 (pollTimes attempt timeoutMs t) := by
  by_cases h : t < timeoutMs
  · rw [pollTimes, dif_pos h]
    cases hres : (attempt t).1 with
    | some url => simp [spacedBy500]
    | none =>
        simp only
        have hsp := pollTimes_spaced attempt timeoutMs (t + (attempt t).2 + 500)
        rcases pollTimes_head attempt timeoutMs (t + (attempt t).2 + 500) with
          hE | ⟨rest, hR⟩
        · rw [hE]
          simp [spacedBy500]
        · rw [hR] at hsp ⊢
          exact ⟨by omega, hsp⟩
  · rw [pollTimes, dif_neg h]
    simp [spacedBy500]
termination_by timeoutMs - t
decreasing_by omega

/-- C6 (amended): against an endpoint that never becomes ready, with each probe
bounded by its 2000 ms request timeout, `waitForCDP` fails with a timeout whose
elapsed time `t` satisfies `T ≤ t < T + 500 + 2000` (poll interval plus the
maximal duration of the final probe), and successive probes start no less than
the 500 ms poll interval apart.  (The claim's tighter bound `t < T + 500` is
refuted by `c6_counterexample`: a probe that hangs for its full 2 s request
timeout pushes the overshoot to almost 2500 ms.) -/
theorem c6_timeout_boundary (attempt : Nat → Option String × Nat)
    (timeoutMs : Nat) (hnone : ∀ u, (attempt u).1 = none)
    (hdur : ∀ u, (attempt u).2 ≤ 2000) :
    (∃ te, waitForCDP attempt timeoutMs 0 = .error te ∧ timeoutMs ≤ te ∧
        te < timeoutMs + 2500) ∧
    spacedBy500 (pollTimes attempt timeoutMs 0) := by
  constructor
  · by_cases h0 : 0 < timeoutMs
    · exact waitForCDP_never_elapsed attempt timeoutMs hnone hdur 0 h0
    · have hT : timeoutMs = 0 := by omega
      subst hT
      exact ⟨0, by rw [waitForCDP, dif_neg (by omega)], Nat.le_refl 0, by omega⟩
  · exact pollTimes_spaced attempt timeoutMs 0

/-- C6 counterexample: with `timeout = 600` and every probe hanging for its
2000 ms request timeout, the loop runs one full iteration (2000 + 500 ms) and
throws at elapsed time 2500 — within `[T, T + 2500)` but violating the claim's
bound `t < T + poll_interval = 1100`. -/
theorem c6_counterexample :
    waitForCDP neverReadySlow 600 0 = .error 2500 ∧ ¬(2500 < 600 + 500) := by
  exact ⟨by simp [waitForCDP, neverReadySlow], by omega⟩

/-- C6 witness: the timeout window and poll spacing evaluated against an
endpoint that fails every probe instantly, with `timeout = 600`. -/
theorem c6_witness :
    (∃ te, waitForCDP neverReadyFast 600 0 = .error te ∧ 600 ≤ te ∧
        te < 600 + 2500) ∧
    spacedBy500 (pollTimes neverReadyFast 600 0) :=
  c6_timeout_boundary neverReadyFast 600 (fun _ => rfl) (fun _ => Nat.zero_le 2000)

/-- C7 (amended): when no executable can be resolved, `launchObsidian` throws
that failure before any spawn (the world is unchanged — no child is created);
when the executable resolves but the OS refuses to start it, Node's `spawn`
still returns a child object — with no pid, its `error` event merely logged —
and the launch instead fails with the CDP readiness timeout after the full
wait, the only child record created having `pid = none`.  In both cases the
call throws, so no handle (partially started or otherwise) is ever returned.
(The claim that an OS spawn refusal surfaces as a launch failure is refuted by
`c7_counterexample`.) -/
theorem c7_launch_failure_modes (envOverride : Option String)
    (penv : PlatformEnv) (newPid : Nat) (mutate : String → String)
    (attempt : Nat → Option String × Nat) (cdpPort timeoutMs : Nat)
    (tr : LaunchTrace) :
    (∀ e, resolveExecutable envOverride penv = .error e →
        launchObsidian envOverride penv false newPid mutate attempt cdpPort
            timeoutMs tr
          = (.error e, tr)) ∧
    (∀ p, resolveExecutable envOverride penv = .ok p →
      (∀ u, (attempt u).1 = none) →
        ∃ te,
          launchObsidian envOverride penv false newPid mutate attempt cdpPort
              timeoutMs tr
            = (.error (.cdpTimeout te),
               { fs := (setOpenVault mutate tr.fs).1,
                 spawned := tr.spawned ++ [{ pid := none }] })) := by
  constructor
  · intro e he
    unfold launchObsidian
    rw [he]
  · intro p hp hnone
    obtain ⟨te, hte⟩ := waitForCDP_never_ready attempt timeoutMs hnone 0
    refine ⟨te, ?_⟩
    unfold launchObsidian
    rw [hp]
    simp only [hte]
    simp

/-- C7 counterexample: a nonexistent executable path set as the override; the
OS refuses the spawn (`spawnOk = false`), the endpoint never answers, and the
launch fails with `cdpTimeout 1000` — a readiness timeout, not the launch
failure the claim requires. -/
theorem c7_counterexample :
    (launchObsidian (some "/nonexistent/obsidian") penvLinuxBoth false 7 id
        neverReadyFast 9222 1000 emptyTrace).1 = .error (.cdpTimeout 1000) ∧
    LaunchErr.cdpTimeout 1000 ≠ LaunchErr.noExecutable := by
  refine ⟨?_, by decide⟩
  simp [launchObsidian, resolveExecutable, setOpenVault, emptyTrace,
    waitForCDP, neverReadyFast, penvLinuxBoth]

/-- C7 witness: the amended failure-mode law evaluated for an override path the
OS refuses to start. -/
theorem c7_witness :
    resolveExecutable (some "/nonexistent/obsidian") penvLinuxBoth
      = .ok "/nonexistent/obsidian" ∧
    (∃ te,
      launchObsidian (some "/nonexistent/obsidian") penvLinuxBoth false 7 id
          neverReadyFast 9222 1000 emptyTrace
        = (.error (.cdpTimeout te),
           { fs := (setOpenVault id emptyTrace.fs).1,
             spawned := emptyTrace.spawned ++ [{ pid := none }] })) :=
  ⟨by decide,
   (c7_launch_failure_modes (some "/nonexistent/obsidian") penvLinuxBoth 7 id
      neverReadyFast 9222 1000 emptyTrace).2 "/nonexistent/obsidian" (by decide)
     (fun _ => rfl)⟩

/-- C8 (amended): the executable resolution order is: a non-empty explicit
override always wins, on every platform; with no override, macOS and Windows
return their single fixed well-known location (no PATH lookup at all); with no
override on Linux, the `which obsidian` PATH lookup is consulted FIRST, and
only when it fails are the well-known install locations probed in order (the
final fallback failing with the no-executable error).  (The claim's order —
well-known locations before the PATH lookup — is refuted by
`c8_counterexample`.) -/
theorem c8_resolution_order (penv : PlatformEnv) :
    (∀ p, p ≠ "" → resolveExecutable (some p) penv = .ok p) ∧
    (penv.os = .darwin →
        resolveExecutable none penv
          = .ok "/Applications/Obsidian.app/Contents/MacOS/Obsidian") ∧
    (penv.os = .win32 →
        resolveExecutable none penv
          = .ok ((penv.localAppData.getD "undefined") ++ "\\Obsidian\\Obsidian.exe")) ∧
    (penv.os = .linux →
      (∀ w, penv.whichObsidian = some w → resolveExecutable none penv = .ok w) ∧
      (penv.whichObsidian = none →
          resolveExecutable none penv
            = match (linuxFallbackPaths penv).find? penv.fileExists with
              | some p => .ok p
              | none => .error .noExecutable)) := by
  refine ⟨?_, ?_, ?_, fun hos => ⟨?_, ?_⟩⟩
  · intro p hp
    simp [resolveExecutable, hp]
  · intro hos
    unfold resolveExecutable resolveObsidianPath
    rw [hos]
  · intro hos
    unfold resolveExecutable resolveObsidianPath
    rw [hos]
  · intro w hw
    unfold resolveExecutable resolveObsidianPath
    rw [hos, hw]
  · intro hw
    unfold resolveExecutable resolveObsidianPath
    rw [hos, hw]

/-- C8 counterexample: on a Linux host where `/usr/bin/obsidian` (a well-known
install location) exists, but `which obsidian` also succeeds with a PATH entry,
the resolver returns the PATH lookup result — the well-known location IS
preempted by the PATH lookup, contradicting the claimed order. -/
theorem c8_counterexample :
    resolveObsidianPath penvLinuxBoth = .ok "/home/user/bin/obsidian" ∧
    penvLinuxBoth.fileExists "/usr/bin/obsidian" = true ∧
    ("/home/user/bin/obsidian" : String) ≠ "/usr/bin/obsidian" := by
  refine ⟨rfl, by decide, by decide⟩

/-- C8 witness: the amended resolution order evaluated concretely — a
non-empty override wins on the Linux host, macOS yields its fixed location,
and without an override the Linux host resolves through the PATH lookup. -/
theorem c8_witness :
    ("/opt/obsidian" : String) ≠ "" ∧
    penvMac.os = .darwin ∧
    penvLinuxBoth.os = .linux ∧
    penvLinuxBoth.whichObsidian = some "/home/user/bin/obsidian" ∧
    (resolveExecutable (some "/opt/obsidian") penvLinuxBoth = .ok "/opt/obsidian" ∧
     resolveExecutable none penvMac
       = .ok "/Applications/Obsidian.app/Contents/MacOS/Obsidian" ∧
     resolveExecutable none penvLinuxBoth = .ok "/home/user/bin/obsidian") :=
  ⟨by decide, rfl, rfl, rfl,
   (c8_resolution_order penvLinuxBoth).1 "/opt/obsidian" (by decide),
   (c8_resolution_order penvMac).2.1 rfl,
   ((c8_resolution_order penvLinuxBoth).2.2.2 rfl).1 "/home/user/bin/obsidian" rfl⟩

/-- C1: for every combination of step failures in one debug run, on every
terminal path the `finally` block has invoked `closeObsidian` exactly once when
a handle was obtained (and never otherwise), and whenever a collector was
created its disposal body has run exactly once and it ends disposed —
regardless of which phase failed, including a rejection from inside the
`dispose` call itself. -/
theorem c1_guaranteed_teardown :
    ∀ (a1 a2 a3 a4 a5 a6 a7 a8 a9 a10 : Bool),
      (mainModel ⟨a1, a2, a3, a4, a5, a6, a7, a8, a9, a10⟩).closeCalls
        = (if (mainModel ⟨a1, a2, a3, a4, a5, a6, a7, a8, a9, a10⟩).obsidianLaunched
           then 1 else 0) ∧
      ((mainModel ⟨a1, a2, a3, a4, a5, a6, a7, a8, a9, a10⟩).collector.all
        (fun c => c.disposed && c.disposeEffectRuns == 1)) = true := by
  decide

end Notor
